import Mathlib

/-!
Shallow embedding of `src/ebaymcp.py` (eBay Research Assistant MCP server).

Python dicts returned by the tool functions are modelled as a JSON-like
value type `JVal` (association lists of string keys).  Python floats are
modelled as exact rationals `ℚ`; every numeric literal in the source is a
short decimal, so this is value-faithful.  Python `int()` truncation is
modelled by `pyInt`.  Each `@mcp.tool()` coroutine body is a pure
computation (straight-line dict construction), embedded as a total
function; the `except` handlers (which turn an exception message into a
failure dict) are embedded as separate `_on_error` functions of the
exception message.
-/

namespace EbayMcp

/-- JSON-like values modelling the Python dicts built by the server. -/
inductive JVal where
  | null : JVal
  | bool : Bool → JVal
  | num : ℚ → JVal
  | str : String → JVal
  | arr : List JVal → JVal
  | obj : List (String × JVal) → JVal

/-- Dictionary lookup on a `JVal`: first value bound to `key` in an object. -/
def JVal.lookup (v : JVal) (key : String) : Option JVal :=
  match v with
  | .obj fields => fields.lookup key
  | _ => none

/-- The keys of a `JVal` object, in insertion order (Python dicts preserve it). -/
def JVal.keys : JVal → List String
  | .obj fields => fields.map Prod.fst
  | _ => []

/-- Two-level dictionary lookup. -/
def JVal.lookup2 (v : JVal) (k1 k2 : String) : Option JVal :=
  (v.lookup k1).bind (fun w => w.lookup k2)

/-- Python `int()` applied to a float: truncation toward zero. -/
def pyInt (q : ℚ) : ℤ :=
  if 0 ≤ q then ⌊q⌋ else ⌈q⌉

/-- Python `max(xs, key=f)`: first element with the strictly largest key
(`max` replaces its running best only on a strict increase). `none` on `[]`
(Python raises `ValueError` there). -/
def pyMaxBy {α : Type} (f : α → ℚ) : List α → Option α
  | [] => none
  | x :: xs => some (xs.foldl (fun acc y => if f acc < f y then y else acc) x)

/-- Python `min(xs, key=f)`: first element with the strictly smallest key. -/
def pyMinBy {α : Type} (f : α → ℚ) : List α → Option α
  | [] => none
  | x :: xs => some (xs.foldl (fun acc y => if f y < f acc then y else acc) x)

/-! ### `track_product_prices` (src/ebaymcp.py lines 27-76) -/

/-- The fields of the fixed `analysis` dict built by `track_product_prices`
(lines 45-60). The function consults no listing data: every field except
`product_name` is a hard-coded constant. -/
structure PriceAnalysis where
  product_name : String
  data_points : ℚ
  date_range : ℚ
  sold_listings : ℚ
  active_listings : ℚ
  avg_sold_price : ℚ
  median_sold_price : ℚ
  min_sold_price : ℚ
  max_sold_price : ℚ
  sold_price_volatility : ℚ
  avg_active_price : ℚ
  median_active_price : ℚ
  min_active_price : ℚ
  max_active_price : ℚ

/-- The `analysis` dict of lines 45-60, as a function of `product_name`. -/
def analysisOf (product_name : String) : PriceAnalysis :=
  { product_name := product_name
    data_points := 25
    date_range := 30
    sold_listings := 15
    active_listings := 10
    avg_sold_price := mkRat 8999 100
    median_sold_price := mkRat 8750 100
    min_sold_price := mkRat 7500 100
    max_sold_price := mkRat 10500 100
    sold_price_volatility := mkRat 825 100
    avg_active_price := mkRat 9250 100
    median_active_price := mkRat 9000 100
    min_active_price := mkRat 8500 100
    max_active_price := mkRat 11000 100 }

/-- Dict encoding of a `PriceAnalysis`, key order as in the source. -/
def PriceAnalysis.toJVal (a : PriceAnalysis) : JVal :=
  .obj [("product_name", .str a.product_name),
        ("data_points", .num a.data_points),
        ("date_range", .num a.date_range),
        ("sold_listings", .num a.sold_listings),
        ("active_listings", .num a.active_listings),
        ("avg_sold_price", .num a.avg_sold_price),
        ("median_sold_price", .num a.median_sold_price),
        ("min_sold_price", .num a.min_sold_price),
        ("max_sold_price", .num a.max_sold_price),
        ("sold_price_volatility", .num a.sold_price_volatility),
        ("avg_active_price", .num a.avg_active_price),
        ("median_active_price", .num a.median_active_price),
        ("min_active_price", .num a.min_active_price),
        ("max_active_price", .num a.max_active_price)]

/-- Body of `track_product_prices` (lines 39-68). `update_frequency` is read
into `force_update`, which is never used afterwards. The summary f-string
interpolates `data_points = 25` and the product name; the recommendation
compares the fixed average active and sold prices. -/
def track_product_prices (product_name : String) (update_frequency : String) : JVal :=
  let _force_update := update_frequency == "force"
  let analysis := analysisOf product_name
  .obj [("success", .bool true),
        ("data", analysis.toJVal),
        ("summary", .str ("Found 25 listings for " ++ product_name)),
        ("recommendation",
          .str (if analysis.avg_active_price < analysis.avg_sold_price * mkRat 11 10
                then "Good buying opportunity" else "Monitor for better prices"))]

/-- The `except` handler of `track_product_prices` (lines 70-76): the failure
dict built from the stringified exception `e`. -/
def track_product_prices_on_error (product_name e : String) : JVal :=
  .obj [("success", .bool false),
        ("error", .str e),
        ("product_name", .str product_name)]

/-! ### `find_arbitrage_opportunities` (src/ebaymcp.py lines 78-139) -/

/-- One entry of the hard-coded `opportunities` list (lines 96-107). -/
structure Opportunity where
  buy_price : ℚ
  sell_price : ℚ
  net_profit : ℚ
  roi_percentage : ℚ
  confidence_score : ℚ
  estimated_fees : ℚ
  buy_source : String
  sell_source : String

/-- Dict encoding of an `Opportunity`, key order as in the source. -/
def Opportunity.toJVal (o : Opportunity) : JVal :=
  .obj [("buy_price", .num o.buy_price),
        ("sell_price", .num o.sell_price),
        ("net_profit", .num o.net_profit),
        ("roi_percentage", .num o.roi_percentage),
        ("confidence_score", .num o.confidence_score),
        ("estimated_fees", .num o.estimated_fees),
        ("buy_source", .str o.buy_source),
        ("sell_source", .str o.sell_source)]

/-- The hard-coded `opportunities` list (lines 96-107): a single fixed entry,
built regardless of `min_profit_margin`. -/
def opportunities : List Opportunity :=
  [{ buy_price := mkRat 8500 100
     sell_price := mkRat 9500 100
     net_profit := mkRat 650 100
     roi_percentage := mkRat 76 10
     confidence_score := 78
     estimated_fees := mkRat 350 100
     buy_source := "eBay Auctions"
     sell_source := "eBay Buy-It-Now" }]

/-- Body of `find_arbitrage_opportunities` (lines 92-131). If the list is
truthy (non-empty), takes `best_opp = opportunities[0]`, computes
`max_units = int(max_investment / buy_price)` and
`total_profit = net_profit * max_units`. -/
def find_arbitrage_opportunities (product_name : String)
    (min_profit_margin max_investment : ℚ) : JVal :=
  match opportunities with
  | best_opp :: rest =>
      let max_units : ℤ := pyInt (max_investment / best_opp.buy_price)
      let total_profit : ℚ := best_opp.net_profit * (max_units : ℚ)
      .obj [("success", .bool true),
            ("opportunities_found", .num ((best_opp :: rest).length : ℚ)),
            ("best_opportunity", best_opp.toJVal),
            ("scaled_analysis",
              .obj [("max_units", .num (max_units : ℚ)),
                    ("total_profit", .num total_profit),
                    ("total_investment", .num max_investment)]),
            ("product_name", .str product_name)]
  | [] =>
      .obj [("success", .bool true),
            ("opportunities_found", .num 0),
            ("message", .str ("No arbitrage opportunities found for " ++ product_name ++
              " with " ++ toString min_profit_margin ++ "% minimum margin")),
            ("product_name", .str product_name)]

/-- The `except` handler of `find_arbitrage_opportunities` (lines 133-139). -/
def find_arbitrage_opportunities_on_error (product_name e : String) : JVal :=
  .obj [("success", .bool false),
        ("error", .str e),
        ("product_name", .str product_name)]

/-! ### `analyze_investment_potential` (src/ebaymcp.py lines 141-192) -/

/-- Horizon multiplier dict lookup with default 1.0 (line 157). -/
def horizon_multiplier (investment_horizon : String) : ℚ :=
  if investment_horizon == "short" then mkRat 5 10
  else if investment_horizon == "medium" then 1
  else if investment_horizon == "long" then 2
  else 1

/-- Body of `analyze_investment_potential` (lines 153-184). All analysis
fields are fixed constants except the horizon-scaled target prices. -/
def analyze_investment_potential (product_name investment_horizon : String) : JVal :=
  let m := horizon_multiplier investment_horizon
  let current_avg_price : ℚ := mkRat 8999 100
  let volatility_pct : ℚ := mkRat 128 10
  let price_trend_pct : ℚ := mkRat 52 10
  let data_points : ℚ := 150
  let target_price_1y : ℚ := mkRat 10200 100 * m
  let potential_upside : ℚ := (target_price_1y - current_avg_price) / current_avg_price * 100
  .obj [("success", .bool true),
        ("analysis",
          .obj [("product_name", .str product_name),
                ("investment_score", .num (mkRat 725 10)),
                ("risk_level", .str "Medium"),
                ("current_avg_price", .num current_avg_price),
                ("price_trend_pct", .num price_trend_pct),
                ("volatility_pct", .num volatility_pct),
                ("target_price_6m", .num (mkRat 9450 100 * m)),
                ("target_price_1y", .num target_price_1y),
                ("data_points", .num data_points),
                ("recommendation", .str "Buy - Good investment opportunity with solid fundamentals"),
                ("investment_horizon", .str investment_horizon)]),
        ("potential_upside_pct", .num potential_upside),
        ("strategy_tips",
          .arr [.str (if volatility_pct > 20 then "Dollar-cost average over 2-3 months"
                      else "Consider lump sum investment"),
                .str (if price_trend_pct < 0 then "Wait for price dip below $85.49 for better entry"
                      else "Current pricing appears favorable"),
                .str (if data_points > 50 then "High liquidity expected"
                      else "Monitor liquidity before large positions")])]

/-- The `except` handler of `analyze_investment_potential` (lines 186-192). -/
def analyze_investment_potential_on_error (product_name e : String) : JVal :=
  .obj [("success", .bool false),
        ("error", .str e),
        ("product_name", .str product_name)]

/-! ### `market_scanner` (src/ebaymcp.py lines 194-261) -/

/-- One entry of the hard-coded catalog `opportunities` list (lines 210-225). -/
structure ScanOpportunity where
  product : String
  price : ℚ
  metric : ℚ
  data : String
  trend : Option ℚ

/-- Dict encoding of a `ScanOpportunity`, key order as in the source
(Python `None` becomes `null`). -/
def ScanOpportunity.toJVal (o : ScanOpportunity) : JVal :=
  .obj [("product", .str o.product),
        ("price", .num o.price),
        ("metric", .num o.metric),
        ("data", .str o.data),
        ("trend", match o.trend with | some t => .num t | none => .null)]

/-- The hard-coded catalog of lines 210-225, whose `data` and `trend` fields
depend on `scan_type`. -/
def scanCatalog (scan_type : String) : List ScanOpportunity :=
  [{ product := "Dominaria United Draft Booster Box"
     price := mkRat 8999 100
     metric := mkRat 125 10
     data := if scan_type == "trending" then "$89.99 (+12.5% trend)" else "$89.99 (15.2% ROI)"
     trend := if scan_type == "trending" then some (mkRat 125 10) else none },
   { product := "The Brothers War Set Booster Box"
     price := mkRat 14500 100
     metric := mkRat 87 10
     data := if scan_type == "trending" then "$145.00 (+8.7% trend)" else "$145.00 (8.7% ROI)"
     trend := if scan_type == "trending" then some (mkRat 87 10) else none }]

/-- The price-range bounds of lines 228-236: start from
`(0, float(inf))` (the unbounded top is `none`), then each recognized
bucket string overrides them. An unrecognized string keeps `(0, ∞)`. -/
def priceBounds (price_range : String) : ℚ × Option ℚ :=
  if price_range == "under100" then (0, some 100)
  else if price_range == "100-500" then (100, some 500)
  else if price_range == "500-1000" then (500, some 1000)
  else if price_range == "over1000" then (1000, none)
  else (0, none)

/-- The filter condition of lines 238-241: `price_min <= price <= price_max`
(with `price <= inf` always true). -/
def inPriceRange (bounds : ℚ × Option ℚ) (price : ℚ) : Bool :=
  decide (bounds.1 ≤ price) &&
    (match bounds.2 with
     | some price_max => decide (price ≤ price_max)
     | none => true)

/-- The list comprehension of lines 238-241 applied to an arbitrary catalog. -/
def filterByPrice (price_range : String) (opps : List ScanOpportunity) :
    List ScanOpportunity :=
  opps.filter (fun opp => inPriceRange (priceBounds price_range) opp.price)

/-- Body of `market_scanner` (lines 208-252). -/
def market_scanner (scan_type price_range time_period : String) : JVal :=
  let filtered_opportunities := filterByPrice price_range (scanCatalog scan_type)
  .obj [("success", .bool true),
        ("scan_type", .str scan_type),
        ("price_range", .str price_range),
        ("time_period", .str time_period),
        ("products_analyzed", .num 10),
        ("opportunities_found", .num (filtered_opportunities.length : ℚ)),
        ("opportunities", .arr (filtered_opportunities.map ScanOpportunity.toJVal)),
        ("summary", .str ("Found " ++ toString filtered_opportunities.length ++ " " ++
          scan_type ++ " opportunities in $" ++ (price_range.replace "-" " - ") ++ " range"))]

/-- The `except` handler of `market_scanner` (lines 254-261). -/
def market_scanner_on_error (scan_type price_range e : String) : JVal :=
  .obj [("success", .bool false),
        ("error", .str e),
        ("scan_type", .str scan_type),
        ("price_range", .str price_range)]

/-! ### `get_portfolio_summary` (src/ebaymcp.py lines 263-333) -/

/-- One entry of the hard-coded `holdings` list (lines 280-301). -/
structure Holding where
  product_name : String
  quantity : ℚ
  total_cost : ℚ
  current_value : ℚ
  pnl : ℚ
  pnl_pct : ℚ
  holding_days : ℚ
  purchase_date : String

/-- Dict encoding of a `Holding`, key order as in the source. -/
def Holding.toJVal (h : Holding) : JVal :=
  .obj [("product_name", .str h.product_name),
        ("quantity", .num h.quantity),
        ("total_cost", .num h.total_cost),
        ("current_value", .num h.current_value),
        ("pnl", .num h.pnl),
        ("pnl_pct", .num h.pnl_pct),
        ("holding_days", .num h.holding_days),
        ("purchase_date", .str h.purchase_date)]

/-- The mock `portfolio` dict of lines 273-302. -/
structure PortfolioData where
  total_invested : ℚ
  current_value : ℚ
  unrealized_pnl : ℚ
  unrealized_pnl_pct : ℚ
  active_positions : ℚ
  avg_holding_period_days : ℚ
  holdings : List Holding

/-- The hard-coded portfolio (lines 273-302). -/
def portfolio : PortfolioData :=
  { total_invested := mkRat 245000 100
    current_value := mkRat 268050 100
    unrealized_pnl := mkRat 23050 100
    unrealized_pnl_pct := mkRat 94 10
    active_positions := 5
    avg_holding_period_days := 120
    holdings :=
      [{ product_name := "Dominaria United Draft Booster Box"
         quantity := 3
         total_cost := mkRat 27000 100
         current_value := mkRat 28500 100
         pnl := mkRat 1500 100
         pnl_pct := mkRat 56 10
         holding_days := 90
         purchase_date := "2024-03-01" },
       { product_name := "Modern Horizons 3 Collector Box"
         quantity := 1
         total_cost := mkRat 38000 100
         current_value := mkRat 42000 100
         pnl := mkRat 4000 100
         pnl_pct := mkRat 105 10
         holding_days := 60
         purchase_date := "2024-04-15" }]}

/-- Dict encoding of the portfolio, key order as in the source. -/
def PortfolioData.toJVal (p : PortfolioData) : JVal :=
  .obj [("total_invested", .num p.total_invested),
        ("current_value", .num p.current_value),
        ("unrealized_pnl", .num p.unrealized_pnl),
        ("unrealized_pnl_pct", .num p.unrealized_pnl_pct),
        ("active_positions", .num p.active_positions),
        ("avg_holding_period_days", .num p.avg_holding_period_days),
        ("holdings", .arr (p.holdings.map Holding.toJVal))]

/-- Body of `get_portfolio_summary` (lines 271-326). When
`active_positions > 0`, best/worst performers are Python
`max`/`min(holdings, key=pnl_pct)`; `max`/`min` on an empty list would raise
`ValueError`, which the handler of lines 328-333 turns into a failure dict. -/
def get_portfolio_summary : JVal :=
  if portfolio.active_positions > 0 then
    match pyMaxBy Holding.pnl_pct portfolio.holdings,
          pyMinBy Holding.pnl_pct portfolio.holdings with
    | some best_performer, some worst_performer =>
        .obj [("success", .bool true),
              ("portfolio", portfolio.toJVal),
              ("performance",
                .obj [("best_performer", best_performer.toJVal),
                      ("worst_performer", worst_performer.toJVal),
                      ("overall_status",
                        .str (if portfolio.unrealized_pnl_pct > 10 then "Strong performance"
                              else if portfolio.unrealized_pnl_pct > 0 then "Moderate performance"
                              else "Underperforming"))]),
              ("recommendations",
                .arr [.str (if portfolio.holdings.any (fun h => h.pnl_pct > 25)
                            then "Consider profit-taking on outperformers"
                            else "Hold current positions"),
                      .str (if portfolio.unrealized_pnl_pct > 0 then "Portfolio trending well"
                            else "Review underperforming assets")])]
    | _, _ =>
        .obj [("success", .bool false),
              ("error", .str "max() arg is an empty sequence")]
  else
    .obj [("success", .bool true),
          ("portfolio", .obj [("active_positions", .num 0)]),
          ("message", .str "Portfolio is empty. Start by recording some investments!")]

/-- The `except` handler of `get_portfolio_summary` (lines 328-333). -/
def get_portfolio_summary_on_error (e : String) : JVal :=
  .obj [("success", .bool false),
        ("error", .str e)]

/-- A catalog entry priced exactly at the 100 boundary, for bucket checks. -/
def boundaryOpp : ScanOpportunity :=
  { product := "Boundary Product"
    price := 100
    metric := 0
    data := ""
    trend := none }

/-!
## Claims
-/

/-- C1: the claim says that for a product with zero listings,
`track_product_prices` returns `success = false` carrying a
`DataUnavailableError`, never fabricated price statistics. The code violates
this: it consults no listing data at all and, for EVERY product name and
update frequency (in particular a product with zero listings), returns
`success = true` together with the fixed fabricated statistics
(25 data points, average sold price 89.99 = `mkRat 8999 100`), and no
`error` field. This theorem records the code's actual behaviour. -/
theorem c1_zero_listings_fabricated_stats (name freq : String) :
    (track_product_prices name freq).lookup "success" = some (.bool true) ∧
    (track_product_prices name freq).lookup "error" = none ∧
    (track_product_prices name freq).lookup "data" = some (analysisOf name).toJVal ∧
    (analysisOf name).data_points = 25 ∧
    (analysisOf name).avg_sold_price = 89.99 :=
  ⟨rfl, rfl, rfl, rfl, by norm_num [analysisOf, Rat.mkRat_eq_div]⟩

/-- C2: the claim says the portfolio-level `unrealized_pnl` equals the sum of
the per-holding `pnl` values, which for the holdings {cost 270, value 285}
and {cost 380, value 420} is 15 + 40 = 55. The code violates this: it
returns the hard-coded `unrealized_pnl = 230.50` while its own two holdings
carry `pnl` values summing to 55. This theorem records the mismatch. -/
theorem c2_portfolio_pnl_mismatch :
    get_portfolio_summary.lookup2 "portfolio" "unrealized_pnl" = some (.num 230.50) ∧
    (portfolio.holdings.map Holding.pnl).sum = 15 + 40 ∧
    portfolio.unrealized_pnl ≠ (portfolio.holdings.map Holding.pnl).sum := by
  refine ⟨?_, by norm_num [portfolio, Rat.mkRat_eq_div], by norm_num [portfolio, Rat.mkRat_eq_div]⟩
  have h : get_portfolio_summary.lookup2 "portfolio" "unrealized_pnl"
      = some (.num (mkRat 23050 100)) := by rfl
  rw [h]
  norm_num [Rat.mkRat_eq_div]

/-- C3: the claim says every returned arbitrage opportunity has
`roi_pct ≥ min_profit_margin`. The code violates this: with
`min_profit_margin = 10` (the documented default) it still returns its
hard-coded opportunity whose `roi_percentage` is 7.6 < 10, because the list
is built without ever consulting the margin. -/
theorem c3_margin_filter_not_enforced :
    (find_arbitrage_opportunities "X" 10 1000).lookup2 "best_opportunity" "roi_percentage"
      = some (.num (mkRat 76 10)) ∧
    (find_arbitrage_opportunities "X" 10 1000).lookup "opportunities_found" = some (.num 1) ∧
    (mkRat 76 10 : ℚ) = 7.6 ∧
    (mkRat 76 10 : ℚ) < 10 := by
  refine ⟨by rfl, by rfl, by norm_num [Rat.mkRat_eq_div], by decide⟩

/-- C4: the claim says an unknown `scan_type` or `price_range` yields a
structured failure (`success = false`, `ValidationError`). The code violates
this: for the unknown `price_range = "bogus"` it keeps the initial bounds
`(0, ∞)`, so the filter passes everything and the scan succeeds with all 2
catalog products and no error field; an unknown `scan_type` likewise
falls through to the non-trending data strings and succeeds. -/
theorem c4_unknown_range_silently_defaulted :
    (market_scanner "trending" "bogus" "7d").lookup "success" = some (.bool true) ∧
    (market_scanner "trending" "bogus" "7d").lookup "error" = none ∧
    (market_scanner "trending" "bogus" "7d").lookup "opportunities_found" = some (.num 2) ∧
    priceBounds "bogus" = (0, none) ∧
    (market_scanner "bogus_scan" "100-500" "7d").lookup "success" = some (.bool true) ∧
    (market_scanner "bogus_scan" "100-500" "7d").lookup "error" = none := by
  refine ⟨by rfl, by rfl, by rfl, by rfl, by rfl, by rfl⟩

/-- C5 counterexample: the claim says the under100 bucket is [0,100), so a
product whose current average price is exactly 100 is excluded from
`price_range = "under100"` results. In the code the filter condition is
`price_min <= price <= price_max` with bounds (0, 100), which is INCLUSIVE
at 100: a catalog entry priced exactly 100 survives the under100 filter. -/
theorem c5_price100_included_counterexample :
    boundaryOpp.price = 100 ∧
    filterByPrice "under100" [boundaryOpp] = [boundaryOpp] :=
  ⟨rfl, rfl⟩

/-- C5 amended: `market_scanner` filters by price against inclusive bucket
bounds — under100 ⇒ [0,100]; 100-500 ⇒ [100,500]; 500-1000 ⇒ [500,1000];
over1000 ⇒ [1000,∞) — so a product priced exactly 100 is INCLUDED in the
under100 bucket (and also in 100-500), while a product whose current average
price is $145.00 is still excluded when `price_range = "under100"`; on the
hard-coded catalog the under100 scan accordingly finds exactly 1 product. -/
theorem c5_bucket_bounds_amended (opps : List ScanOpportunity) (o : ScanOpportunity)
    (hmem : o ∈ opps) :
    (∀ p : ℚ, inPriceRange (priceBounds "under100") p = (decide (0 ≤ p) && decide (p ≤ 100))) ∧
    (∀ p : ℚ, inPriceRange (priceBounds "100-500") p = (decide (100 ≤ p) && decide (p ≤ 500))) ∧
    (∀ p : ℚ, inPriceRange (priceBounds "500-1000") p = (decide (500 ≤ p) && decide (p ≤ 1000))) ∧
    (∀ p : ℚ, inPriceRange (priceBounds "over1000") p = decide (1000 ≤ p)) ∧
    (o.price = 100 → o ∈ filterByPrice "under100" opps) ∧
    (o.price = 145 → o ∉ filterByPrice "under100" opps) ∧
    (market_scanner "trending" "under100" "7d").lookup "opportunities_found" = some (.num 1) := by
  refine ⟨fun p => rfl, fun p => rfl, fun p => rfl,
    fun p => by
      rw [show inPriceRange (priceBounds "over1000") p = (decide (1000 ≤ p) && true) from rfl,
        Bool.and_true],
    ?_, ?_, by rfl⟩
  · intro hp
    simp only [filterByPrice]
    refine List.mem_filter.mpr ⟨hmem, ?_⟩
    rw [hp]
    rfl
  · intro hp hin
    simp only [filterByPrice] at hin
    have h2 := (List.mem_filter.mp hin).2
    rw [hp] at h2
    have h145 : (145 : ℚ) = mkRat 14500 100 := by norm_num [Rat.mkRat_eq_div]
    rw [h145] at h2
    have h3 : inPriceRange (priceBounds "under100") (mkRat 14500 100) = false := by rfl
    rw [h3] at h2
    exact Bool.noConfusion h2

/-- C5 witness: the amended theorem instantiated on the one-element catalog
holding the boundary product priced exactly 100. -/
theorem c5_bucket_bounds_amended_witness :
    (∀ p : ℚ, inPriceRange (priceBounds "under100") p = (decide (0 ≤ p) && decide (p ≤ 100))) ∧
    (∀ p : ℚ, inPriceRange (priceBounds "100-500") p = (decide (100 ≤ p) && decide (p ≤ 500))) ∧
    (∀ p : ℚ, inPriceRange (priceBounds "500-1000") p = (decide (500 ≤ p) && decide (p ≤ 1000))) ∧
    (∀ p : ℚ, inPriceRange (priceBounds "over1000") p = decide (1000 ≤ p)) ∧
    (boundaryOpp.price = 100 → boundaryOpp ∈ filterByPrice "under100" [boundaryOpp]) ∧
    (boundaryOpp.price = 145 → boundaryOpp ∉ filterByPrice "under100" [boundaryOpp]) ∧
    (market_scanner "trending" "under100" "7d").lookup "opportunities_found" = some (.num 1) :=
  c5_bucket_bounds_amended [boundaryOpp] boundaryOpp (List.Mem.head _)

/-- C6: for every `max_investment > 0` (and any margin and product name), the
returned best opportunity has `buy_price > 0` and the scaled analysis
satisfies `max_units = ⌊max_investment / buy_price⌋` and
`total_profit = net_profit * max_units` (Python `int()` truncates toward
zero, which on the positive quotient coincides with the floor). -/
theorem c6_scaled_analysis_floor (name : String) (margin mi : ℚ) (hmi : 0 < mi) :
    ∃ o : Opportunity,
      (find_arbitrage_opportunities name margin mi).lookup "best_opportunity" = some o.toJVal ∧
      0 < o.buy_price ∧
      (find_arbitrage_opportunities name margin mi).lookup "scaled_analysis" =
        some (.obj [("max_units", .num ((⌊mi / o.buy_price⌋ : ℤ) : ℚ)),
                    ("total_profit", .num (o.net_profit * ((⌊mi / o.buy_price⌋ : ℤ) : ℚ))),
                    ("total_investment", .num mi)]) := by
  refine ⟨⟨mkRat 8500 100, mkRat 9500 100, mkRat 650 100, mkRat 76 10, 78, mkRat 350 100,
          "eBay Auctions", "eBay Buy-It-Now"⟩, rfl, by decide, ?_⟩
  have hq : (0 : ℚ) ≤ mi / mkRat 8500 100 := le_of_lt (div_pos hmi (by decide))
  have hp : pyInt (mi / mkRat 8500 100) = ⌊mi / mkRat 8500 100⌋ := by
    unfold pyInt
    rw [if_pos hq]
  have base : (find_arbitrage_opportunities name margin mi).lookup "scaled_analysis" =
      some (.obj [("max_units", .num ((pyInt (mi / mkRat 8500 100) : ℤ) : ℚ)),
                  ("total_profit", .num (mkRat 650 100 * ((pyInt (mi / mkRat 8500 100) : ℤ) : ℚ))),
                  ("total_investment", .num mi)]) := rfl
  rw [base, hp]

/-- C6 witness: the theorem instantiated at `max_investment = 1000` and
margin 10; there `max_units = ⌊1000 / 85⌋ = 11` and
`total_profit = 6.5 * 11 = 71.5`. -/
theorem c6_scaled_analysis_floor_witness :
    (0 : ℚ) < 1000 ∧
    ∃ o : Opportunity,
      (find_arbitrage_opportunities "X" 10 1000).lookup "best_opportunity" = some o.toJVal ∧
      0 < o.buy_price ∧
      (find_arbitrage_opportunities "X" 10 1000).lookup "scaled_analysis" =
        some (.obj [("max_units", .num ((⌊(1000 : ℚ) / o.buy_price⌋ : ℤ) : ℚ)),
                    ("total_profit", .num (o.net_profit * ((⌊(1000 : ℚ) / o.buy_price⌋ : ℤ) : ℚ))),
                    ("total_investment", .num 1000)]) :=
  ⟨by decide, c6_scaled_analysis_floor "X" 10 1000 (by decide)⟩

/-- C7: for every input, each per-status price snapshot produced by
`track_product_prices` satisfies min ≤ median ≤ max, and the mean lies in
[min, max]: sold 75 ≤ 87.50 ≤ 105 with mean 89.99, active
85 ≤ 90 ≤ 110 with mean 92.50 (the output is the fixed `analysisOf` data,
independent of any listing set). -/
theorem c7_snapshot_order_invariants (name freq : String) :
    (track_product_prices name freq).lookup "data" = some (analysisOf name).toJVal ∧
    ((analysisOf name).min_sold_price ≤ (analysisOf name).median_sold_price ∧
      (analysisOf name).median_sold_price ≤ (analysisOf name).max_sold_price) ∧
    ((analysisOf name).min_sold_price ≤ (analysisOf name).avg_sold_price ∧
      (analysisOf name).avg_sold_price ≤ (analysisOf name).max_sold_price) ∧
    ((analysisOf name).min_active_price ≤ (analysisOf name).median_active_price ∧
      (analysisOf name).median_active_price ≤ (analysisOf name).max_active_price) ∧
    ((analysisOf name).min_active_price ≤ (analysisOf name).avg_active_price ∧
      (analysisOf name).avg_active_price ≤ (analysisOf name).max_active_price) := by
  have h1 : (mkRat 7500 100 : ℚ) ≤ mkRat 8750 100 := by decide
  have h2 : (mkRat 8750 100 : ℚ) ≤ mkRat 10500 100 := by decide
  have h3 : (mkRat 7500 100 : ℚ) ≤ mkRat 8999 100 := by decide
  have h4 : (mkRat 8999 100 : ℚ) ≤ mkRat 10500 100 := by decide
  have h5 : (mkRat 8500 100 : ℚ) ≤ mkRat 9000 100 := by decide
  have h6 : (mkRat 9000 100 : ℚ) ≤ mkRat 11000 100 := by decide
  have h7 : (mkRat 8500 100 : ℚ) ≤ mkRat 9250 100 := by decide
  have h8 : (mkRat 9250 100 : ℚ) ≤ mkRat 11000 100 := by decide
  exact ⟨rfl, ⟨h1, h2⟩, ⟨h3, h4⟩, ⟨h5, h6⟩, ⟨h7, h8⟩⟩

/-- C8 counterexample: the claim says a failure result carries an error code
and message. The failure dicts built by the `except` handlers are, in full,
`{success: false, error: str(e), ...context}`: their only errror-related
field is the message string `error`; no field holds an error code (such as
the taxonomy codes ValidationError / DataUnavailableError), as the complete
key lists show at a concrete input. -/
theorem c8_failure_no_error_code_counterexample :
    track_product_prices_on_error "Widget" "boom" =
      .obj [("success", .bool false), ("error", .str "boom"), ("product_name", .str "Widget")] ∧
    (track_product_prices_on_error "Widget" "boom").keys
      = ["success", "error", "product_name"] ∧
    market_scanner_on_error "trending" "under100" "boom" =
      .obj [("success", .bool false), ("error", .str "boom"),
            ("scan_type", .str "trending"), ("price_range", .str "under100")] ∧
    (market_scanner_on_error "trending" "under100" "boom").keys
      = ["success", "error", "scan_type", "price_range"] :=
  ⟨rfl, rfl, rfl, rfl⟩

/-- C8 amended: for every input, each analytic operation returns a
structured dict containing a `success` flag and never propagates a bare
exception (each body is total; its `except` handler converts any exception
into a failure dict); on failure the result carries the error MESSAGE in
the `error` field plus input context, but no separate error code. -/
theorem c8_structured_results_amended (pn freq horizon st pr tp e : String)
    (margin mi : ℚ) :
    (track_product_prices pn freq).lookup "success" = some (.bool true) ∧
    (find_arbitrage_opportunities pn margin mi).lookup "success" = some (.bool true) ∧
    (analyze_investment_potential pn horizon).lookup "success" = some (.bool true) ∧
    (market_scanner st pr tp).lookup "success" = some (.bool true) ∧
    get_portfolio_summary.lookup "success" = some (.bool true) ∧
    ((track_product_prices_on_error pn e).lookup "success" = some (.bool false) ∧
      (track_product_prices_on_error pn e).lookup "error" = some (.str e)) ∧
    ((find_arbitrage_opportunities_on_error pn e).lookup "success" = some (.bool false) ∧
      (find_arbitrage_opportunities_on_error pn e).lookup "error" = some (.str e)) ∧
    ((analyze_investment_potential_on_error pn e).lookup "success" = some (.bool false) ∧
      (analyze_investment_potential_on_error pn e).lookup "error" = some (.str e)) ∧
    ((market_scanner_on_error st pr e).lookup "success" = some (.bool false) ∧
      (market_scanner_on_error st pr e).lookup "error" = some (.str e)) ∧
    ((get_portfolio_summary_on_error e).lookup "success" = some (.bool false) ∧
      (get_portfolio_summary_on_error e).lookup "error" = some (.str e)) :=
  ⟨rfl, rfl, rfl, by rfl, by rfl, ⟨rfl, rfl⟩, ⟨rfl, rfl⟩, ⟨rfl, rfl⟩, ⟨rfl, rfl⟩, ⟨rfl, rfl⟩⟩

/-- C9: `track_product_prices` returns the identical dict for
`update_frequency = "auto"` and `"force"`: the flag is only read into the
unused `force_update` local, so it has no observable effect on the output. -/
theorem c9_update_frequency_no_observable_effect (name : String) :
    track_product_prices name "auto" = track_product_prices name "force" := rfl

/-- C10: the empty-portfolio branch of `get_portfolio_summary` is
unreachable: the hard-coded `active_positions = 5` is positive, so every
call returns `success = true` with the fixed two-holding portfolio and no
empty-portfolio `message`; the best performer is the holding with
`pnl_pct = 10.5` and the worst the one with `pnl_pct = 5.6`. -/
theorem c10_nonempty_branch_taken :
    portfolio.active_positions > 0 ∧
    get_portfolio_summary.lookup "success" = some (.bool true) ∧
    get_portfolio_summary.lookup "portfolio" = some portfolio.toJVal ∧
    get_portfolio_summary.lookup "message" = none ∧
    (get_portfolio_summary.lookup2 "performance" "best_performer").bind
      (fun v => v.lookup "pnl_pct") = some (.num (mkRat 105 10)) ∧
    (get_portfolio_summary.lookup2 "performance" "worst_performer").bind
      (fun v => v.lookup "pnl_pct") = some (.num (mkRat 56 10)) ∧
    (mkRat 105 10 : ℚ) = 10.5 ∧ (mkRat 56 10 : ℚ) = 5.6 := by
  refine ⟨by decide, by rfl, by rfl, by rfl, by rfl, by rfl,
    by norm_num [Rat.mkRat_eq_div], by norm_num [Rat.mkRat_eq_div]⟩

end EbayMcp
